import Mathlib

/-!
Verification development for the NFT-marketplace backend (Flask app in
`bankend/app.py`, `bankend/wallet_interact.py`, `bankend/filebase_utils.py`).

The Python code is shallowly embedded: every external service (chain node,
S3/IPFS object store, HTTP metadata fetch, signature recovery, checksum
conversion) is a field of an `Env` record supplying its outcome, handlers are
pure functions from `Env`, session and store state to a response, the new
session, the new store state, and a trace of the external effects performed.
Python exceptions become `Except PyErr`; a `PyErr.valueError` corresponds to
Python `ValueError` (the handlers catch it separately from other exceptions).
-/

/-- Python exception kinds that the handlers distinguish: `ValueError`
(caught separately by `connect_wallet`, `list_nft`, `unlist_nft`, `profile`)
versus every other exception. -/
inductive PyErr where
  | valueError : String → PyErr
  | other : String → PyErr
deriving Repr, DecidableEq

/-- Message carried by a Python exception (its `str(e)`). -/
def pyErrMsg : PyErr → String
  | .valueError m => m
  | .other m => m

/-- A JSON scalar value as used by the metadata documents. -/
inductive JVal where
  | s : String → JVal
  | n : Int → JVal
  | null : JVal
deriving Repr, DecidableEq

/-- A JSON object, as an ordered association list (mirrors a Python dict). -/
abbrev JObj := List (String × JVal)

/-- `d.get(k, default)` on a Python dict. -/
def jsonGetD (j : JObj) (k : String) (d : JVal) : JVal :=
  match j.find? (fun p => p.1 == k) with
  | some p => p.2
  | none => d

/-- `k in d` on a Python dict. -/
def jsonHas (j : JObj) (k : String) : Bool :=
  (j.find? (fun p => p.1 == k)).isSome

/-- Serialisation of one JSON scalar (string escaping is not modelled; the
contents written by this backend contain no characters needing escapes). -/
def JVal.dump : JVal → String
  | .s v => "\"" ++ v ++ "\""
  | .n v => toString v
  | .null => "null"

/-- `json.dumps` on an object, with the default `", "` and `": "` separators. -/
def jsonDump (j : JObj) : String :=
  "\x7b" ++ String.intercalate ", " (j.map (fun p => "\"" ++ p.1 ++ "\": " ++ p.2.dump)) ++ "\x7d"

/-- `os.path.basename`: the part of the path after the last slash. -/
def basename (s : String) : String :=
  (s.splitOn "/").reverse.headD s

/-- Python `str.lower()` over the ASCII strings this backend handles
(addresses, function names), written structurally so that the kernel can
evaluate it. -/
def pyLower (s : String) : String :=
  String.mk (s.data.map Char.toLower)

/-- Helper for `pyToInt`: read a non-empty run of decimal digits. -/
def pyDigitsAux : List Char → ℕ → Option ℕ
  | [], acc => some acc
  | c :: cs, acc =>
      if c.isDigit then pyDigitsAux cs (acc * 10 + (c.toNat - 48)) else none

/-- Python `int(str)` on the token ids this backend receives: an optional
sign followed by decimal digits (whitespace stripping and underscore
separators are not modelled); anything else raises `ValueError`, modelled as
`none`. Written structurally so that the kernel can evaluate it. -/
def pyToInt (s : String) : Option Int :=
  match s.data with
  | [] => none
  | c :: cs =>
      if c = Char.ofNat 45 then
        match cs with
        | [] => none
        | _ => (pyDigitsAux cs 0).map (fun n => -(n : Int))
      else if c = Char.ofNat 43 then
        match cs with
        | [] => none
        | _ => (pyDigitsAux cs 0).map (fun n => (n : Int))
      else (pyDigitsAux (c :: cs) 0).map (fun n => (n : Int))

/-- Python truthiness of an optional string (absent and `""` are falsy). -/
def truthyS : Option String → Bool
  | some s => s != ""
  | none => false

/-- Python truthiness of an optional number (absent and `0` are falsy). -/
def truthyQ : Option ℚ → Bool
  | some q => q != 0
  | none => false

/-- `w3.from_wei(x, "ether")`: exact division by `10^18`. -/
def from_wei (wei : ℕ) : ℚ :=
  (wei : ℚ) / ((10 : ℚ) ^ 18)

/-- `w3.to_wei(x, "ether")`: multiplication by `10^18`; a value that is not a
whole number of wei raises `ValueError`. -/
def to_wei_ether (q : ℚ) : Except PyErr Int :=
  let w := q * ((10 : ℚ) ^ 18)
  if w.den == 1 then .ok w.num else .error (.valueError "invalid ether value")

/-- The tuple returned by the contract's `getTokenDetails(tokenId)` view:
`(owner, creator, price, uri, isListed)`. -/
structure TokenDetails where
  owner : String
  creator : String
  price : ℕ
  uri : String
  is_listed : Bool
deriving Repr, DecidableEq

/-- An uploaded multipart file. `size` is the byte count the handler measures
with `seek(0, SEEK_END); tell()`; `content` stands for the bytes themselves
(kept abstract as a string token so that witnesses stay small). -/
structure FileUpload where
  filename : String
  content : String
  size : ℕ
deriving Repr, DecidableEq

/-- One object in the S3-compatible store. -/
structure StoredObject where
  key : String
  content : String
  contentType : String
deriving Repr, DecidableEq

/-- The object store: the list of objects uploaded so far, in upload order. -/
abbrev Store := List StoredObject

/-- Externally visible effects a handler can perform, in order. `chainSend`
would be the submission of a signed transaction to the chain; it exists in the
effect alphabet so that its absence from every trace is a statable property. -/
inductive Effect where
  | chainRead : String → Effect
  | upload : String → Effect
  | txBuild : String → Effect
  | chainSend : Effect
  | httpGet : String → Effect
deriving Repr, DecidableEq

/-- An unsigned transaction object as produced by `build_transaction`. -/
structure Tx where
  chainId : ℕ
  gas : ℕ
  gasPrice : ℕ
  nonce : ℕ
  fromAddr : String
  fn : String
  args : List String
deriving Repr, DecidableEq

/-- One entry of the `/listings` result (the dict built by the
`get_nfts_for_sale` defined in `app.py`, which is the one the route calls). -/
structure SaleNft where
  token_id : ℕ
  image : JVal
  name : JVal
  description : JVal
  price : ℚ
  owner : String
deriving Repr, DecidableEq

/-- One entry of the result of `wallet_interact.get_nfts_for_sale` (shadowed
by the `app.py` definition for the `/listings` route, but kept as source). -/
structure WiSaleNft where
  token_id : ℕ
  image : JVal
  name : JVal
  description : JVal
  price : ℚ
  owner : String
  creator : String
  metadata_url : String
deriving Repr, DecidableEq

/-- One entry of the result of `get_nfts_for_user`. -/
structure UserNft where
  token_id : ℕ
  image : JVal
  name : JVal
  description : JVal
  price : Option ℚ
  is_listed : Bool
  metadata_url : String
  file_type : JVal
  main_url : JVal
  thumbnail_url : JVal
deriving Repr, DecidableEq

/-- Responses of the handlers. `fail s e` is `jsonify({success: False,
error: e}), s`; `errOnly` is a JSON body with only an error key; `crash` is an
exception that escapes the handler (Flask then serves a generic 500 page). -/
inductive HResp where
  | ok : HResp
  | fail : ℕ → String → HResp
  | errOnly : ℕ → String → HResp
  | okTokenUri : String → HResp
  | okTx : Tx → HResp
  | okNfts : List SaleNft → HResp
  | okJson : ℕ → JObj → HResp
  | redirect : String → HResp
  | page : String → HResp
  | pageProfile : String → ℚ → List UserNft → HResp
  | crash : HResp
deriving Repr, DecidableEq

/-- The server-side session, holding at most the verified wallet address. -/
abbrev Session := Option String

/-- Outcome of handling one request. -/
structure Out where
  resp : HResp
  sess : Session
  store : Store
  trace : List Effect
deriving Repr, DecidableEq

/-- The external world: chain node, object store behaviour, HTTP, crypto.
`cid` is the content address the store assigns to uploaded bytes; `uploadErr`
injects an upload failure for a given object key; `toChecksum` is
`Web3.to_checksum_address` (raises `ValueError` on a bad address); `recover`
is `w3.eth.account.recover_message`. -/
structure Env where
  gateway : String
  cid : String → String
  uploadErr : String → Option String
  mime : String → Option String
  contractInit : Bool
  totalSupply : Except PyErr ℕ
  getTokenDetails : Int → Except PyErr TokenDetails
  ownerOf : Int → Except PyErr String
  gasPrice : Except PyErr ℕ
  txCount : String → Except PyErr ℕ
  getBalance : String → Except PyErr ℕ
  getReceipt : String → Except PyErr JObj
  httpGet : String → Except PyErr (ℕ × JObj)
  recover : String → String → Except PyErr String
  toChecksum : String → Except PyErr String
  readAbi : Except PyErr JObj
  now : ℕ

/-! ## `filebase_utils.py` -/

/-- `upload_file_to_filebase(file_obj, key_prefix, filename, content_type)`:
sanitises the filename, uploads the bytes under `key_prefix/filename`, reads
back the CID from the object metadata and returns the IPFS gateway URL and the
S3 key. On failure the store is unchanged and the error propagates. -/
def upload_file_to_filebase (env : Env) (store : Store)
    (keyPre filename content content_type : String) :
    Except PyErr (String × String) × Store × List Effect :=
  let fname := basename filename
  let s3_key := keyPre ++ "/" ++ fname
  match env.uploadErr s3_key with
  | some e => (.error (.other e), store, [])
  | none =>
      let ipfs_url := env.gateway ++ env.cid content
      (.ok (ipfs_url, s3_key), store ++ [⟨s3_key, content, content_type⟩], [Effect.upload s3_key])

/-! ## `wallet_interact.py` -/

/-- The metadata dict literal built inside `prepare_nft_metadata` (source
lines 68-79): ten fields, `image` falling back to the main URL unless the file
is video/audio with a truthy thumbnail URL. -/
def metadataDoc (now : ℕ) (name description wallet_address file_type main_url : String)
    (thumbnail_url : Option String) : JObj :=
  [("name", JVal.s name),
   ("description", JVal.s description),
   ("creator", JVal.s wallet_address),
   ("created_at", JVal.n (now : Int)),
   ("file_type", JVal.s file_type),
   ("main_url", JVal.s main_url),
   ("thumbnail_url", match thumbnail_url with | some t => JVal.s t | none => JVal.null),
   ("image", JVal.s (match thumbnail_url with
       | some t => if (file_type == "video" || file_type == "audio") && t != "" then t else main_url
       | none => main_url)),
   ("network", JVal.s "zksync-sepolia"),
   ("chainId", JVal.n 300)]

/-- `prepare_nft_metadata`: upload the main file, optionally the thumbnail,
build the metadata JSON embedding the returned gateway URLs, upload it, and
return the metadata document's gateway URL. Any failure is re-raised as
`RuntimeError("Could not create NFT metadata: ...")`; uploads already
performed stay in the store. -/
def prepare_nft_metadata (env : Env) (store : Store) (file : FileUpload)
    (name description wallet_address file_type : String) (thumbnail : Option FileUpload) :
    Except PyErr String × Store × List Effect :=
  let addrPre := pyLower wallet_address
  let content_type := (env.mime file.filename).getD "application/octet-stream"
  match upload_file_to_filebase env store addrPre file.filename file.content content_type with
  | (.error e, store1, ef1) =>
      (.error (.other ("Could not create NFT metadata: " ++ pyErrMsg e)), store1, ef1)
  | (.ok mainRes, store1, ef1) =>
    let main_url := mainRes.1
    let thumbStep : Except PyErr (Option String) × Store × List Effect :=
      match thumbnail with
      | none => (.ok none, store1, ef1)
      | some th =>
          let thumbCT := (env.mime th.filename).getD "image/jpeg"
          match upload_file_to_filebase env store1 (addrPre ++ "/thumbnails")
              ("thumb_" ++ toString env.now ++ "_" ++ file.filename) th.content thumbCT with
          | (.error e, store2, ef2) => (.error e, store2, ef1 ++ ef2)
          | (.ok thRes, store2, ef2) => (.ok (some thRes.1), store2, ef1 ++ ef2)
    match thumbStep with
    | (.error e, store2, efs) =>
        (.error (.other ("Could not create NFT metadata: " ++ pyErrMsg e)), store2, efs)
    | (.ok thumbnail_url, store2, efs) =>
        let md := metadataDoc env.now name description wallet_address file_type main_url thumbnail_url
        let mcontent := jsonDump md
        let mname := "metadata_" ++ toString env.now ++ ".json"
        match upload_file_to_filebase env store2 (addrPre ++ "/metadata") mname mcontent
            "application/json" with
        | (.error e, store3, ef3) =>
            (.error (.other ("Could not create NFT metadata: " ++ pyErrMsg e)), store3, efs ++ ef3)
        | (.ok metaRes, store3, ef3) => (.ok metaRes.1, store3, efs ++ ef3)

/-- `get_balance`: checksum the address, read the balance, convert to ether;
any failure is caught and yields `0`. -/
def get_balance (env : Env) (wallet_address : String) : ℚ × List Effect :=
  match env.toChecksum wallet_address with
  | .error _ => (0, [])
  | .ok ca =>
    match env.getBalance ca with
    | .error _ => (0, [Effect.chainRead "balance"])
    | .ok wei => (from_wei wei, [Effect.chainRead "balance"])

/-- The body of one iteration of the token loop in `get_nfts_for_user`:
read the token details, keep the token if owned by the wallet and its
metadata fetch returns HTTP 200 (applying the backward-compatibility
defaults), and skip it (returning `none`) if anything raises. -/
def userItem (env : Env) (wallet_address : String) (token_id : ℕ) :
    Option UserNft × List Effect :=
  match env.getTokenDetails (token_id : Int) with
  | .error _ => (none, [Effect.chainRead "getTokenDetails"])
  | .ok d =>
    if pyLower d.owner == pyLower wallet_address then
      match env.httpGet d.uri with
      | .error _ => (none, [Effect.chainRead "getTokenDetails", Effect.httpGet d.uri])
      | .ok st =>
        if st.1 == 200 then
          let m0 := st.2
          let m1 := if jsonHas m0 "file_type" then m0 else m0 ++ [("file_type", JVal.s "image")]
          let m2 := if jsonHas m1 "main_url" then m1
                    else m1 ++ [("main_url", jsonGetD m1 "image" (JVal.s ""))]
          let m3 := if jsonHas m2 "thumbnail_url" then m2
                    else m2 ++ [("thumbnail_url", jsonGetD m2 "image" (JVal.s ""))]
          (some {
            token_id := token_id,
            image := jsonGetD m3 "image" (JVal.s ""),
            name := jsonGetD m3 "name" (JVal.s ("Token #" ++ toString token_id)),
            description := jsonGetD m3 "description" (JVal.s ""),
            price := if 0 < d.price then some (from_wei d.price) else none,
            is_listed := d.is_listed,
            metadata_url := d.uri,
            file_type := jsonGetD m3 "file_type" (JVal.s "image"),
            main_url := jsonGetD m3 "main_url" (jsonGetD m3 "image" (JVal.s "")),
            thumbnail_url := jsonGetD m3 "thumbnail_url" (jsonGetD m3 "image" (JVal.s "")) },
           [Effect.chainRead "getTokenDetails", Effect.httpGet d.uri])
        else (none, [Effect.chainRead "getTokenDetails", Effect.httpGet d.uri])
    else (none, [Effect.chainRead "getTokenDetails"])

/-- `get_nfts_for_user`: checksum the address (uncaught if it raises), then
iterate token ids `1..totalSupply`, skipping every token whose external calls
fail; failures of `totalSupply` itself yield `[]`. -/
def get_nfts_for_user (env : Env) (wallet_address : String) :
    Except PyErr (List UserNft) × List Effect :=
  match env.toChecksum wallet_address with
  | .error e => (.error e, [])
  | .ok wa =>
    if !env.contractInit then (.ok [], [])
    else
      match env.totalSupply with
      | .error _ => (.ok [], [Effect.chainRead "totalSupply"])
      | .ok total =>
          (.ok ((List.range' 1 total).filterMap (fun tid => (userItem env wa tid).1)),
           Effect.chainRead "totalSupply" ::
             List.flatten ((List.range' 1 total).map (fun tid => (userItem env wa tid).2)))

/-- One iteration of the token loop of `wallet_interact.get_nfts_for_sale`:
a listed token with positive price is kept even when the metadata fetch
returns a non-200 status (the metadata defaults to `{}` then); a raising call
skips the token. -/
def wiSaleItem (env : Env) (token_id : ℕ) : Option WiSaleNft × List Effect :=
  match env.getTokenDetails (token_id : Int) with
  | .error _ => (none, [Effect.chainRead "getTokenDetails"])
  | .ok d =>
    if d.is_listed ∧ 0 < d.price then
      match env.httpGet d.uri with
      | .error _ => (none, [Effect.chainRead "getTokenDetails", Effect.httpGet d.uri])
      | .ok st =>
        let metadata := if st.1 == 200 then st.2 else []
        (some {
          token_id := token_id,
          image := jsonGetD metadata "image" (JVal.s ""),
          name := jsonGetD metadata "name" (JVal.s ("Token #" ++ toString token_id)),
          description := jsonGetD metadata "description" (JVal.s ""),
          price := from_wei d.price,
          owner := d.owner,
          creator := d.creator,
          metadata_url := d.uri },
         [Effect.chainRead "getTokenDetails", Effect.httpGet d.uri])
    else (none, [Effect.chainRead "getTokenDetails"])

/-- `wallet_interact.get_nfts_for_sale` (the name the `/listings` route would
import, but which the later definition in `app.py` shadows). -/
def wi_get_nfts_for_sale (env : Env) : List WiSaleNft × List Effect :=
  if !env.contractInit then ([], [])
  else
    match env.totalSupply with
    | .error _ => ([], [Effect.chainRead "totalSupply"])
    | .ok total =>
        ((List.range' 1 total).filterMap (fun tid => (wiSaleItem env tid).1),
         Effect.chainRead "totalSupply" ::
           List.flatten ((List.range' 1 total).map (fun tid => (wiSaleItem env tid).2)))

/-! ## `app.py` -/

/-- Request body of `POST /connect`. -/
structure ConnectBody where
  signature : Option String
  message : Option String
  address : Option String
deriving Repr, DecidableEq

/-- Form data of `POST /create`. -/
structure CreateForm where
  name : Option String
  description : Option String
  file_type : Option String
  file : Option FileUpload
  thumbnail : Option FileUpload
deriving Repr, DecidableEq

/-- JSON body of `POST /mint`. -/
structure MintBody where
  token_uri : Option String
deriving Repr, DecidableEq

/-- JSON body of `POST /list`. `token_id` is kept as the raw string the client
sent (the handler converts it with `int(...)`); `price` as a number. -/
structure ListBody where
  token_id : Option String
  price : Option ℚ
deriving Repr, DecidableEq

/-- JSON body of `POST /unlist`. -/
structure UnlistBody where
  token_id : Option String
deriving Repr, DecidableEq

/-- `verify_signature(message, signature, address)`: recover the signer of
the prefixed message and compare case-insensitively; any exception yields
`False`. -/
def verify_signature (env : Env) (message signature address : String) : Bool :=
  match env.recover message signature with
  | .ok signer => pyLower signer == pyLower address
  | .error _ => false

/-- `POST /connect`: require a JSON body and all three parameters, verify the
signature, convert the address to checksum form and store it in the session.
`to_checksum_address` raising `ValueError` yields a 400; any other exception
there escapes the handler. -/
def connect_wallet (env : Env) (sess : Session) (store : Store) (body : Option ConnectBody) : Out :=
  match body with
  | none => ⟨.fail 400 "Missing JSON data", sess, store, []⟩
  | some data =>
    if !(truthyS data.signature && truthyS data.message && truthyS data.address) then
      ⟨.fail 400 "Missing parameters", sess, store, []⟩
    else
      let signature := data.signature.getD ""
      let message := data.message.getD ""
      let address := data.address.getD ""
      if verify_signature env message signature address then
        match env.toChecksum address with
        | .ok checksum_address => ⟨.ok, some checksum_address, store, []⟩
        | .error (.valueError e) => ⟨.fail 400 ("Invalid address: " ++ e), sess, store, []⟩
        | .error (.other _) => ⟨.crash, sess, store, []⟩
      else
        ⟨.fail 401 "Signature verification failed", sess, store, []⟩

/-- `POST /disconnect`: pop the session entry and redirect to `/`. -/
def disconnect_wallet (_sess : Session) (store : Store) : Out :=
  ⟨.redirect "/", none, store, []⟩

/-- `POST /create`: wallet gate, required-field check, size checks (100MB for
the main file, a thumbnail required and capped at 10MB for video/audio), then
`prepare_nft_metadata`; its result is the token URI, its failure a 500. -/
def create_nft (env : Env) (sess : Session) (store : Store) (form : CreateForm) : Out :=
  match sess with
  | none => ⟨.fail 401 "Wallet not connected", sess, store, []⟩
  | some wallet_address =>
    let file_type := form.file_type.getD "image"
    if truthyS form.name && truthyS form.description && form.file.isSome then
      match form.file with
      | none => ⟨.fail 400 "Missing required fields", some wallet_address, store, []⟩
      | some file =>
        let proceed : Unit → Out := fun _ =>
          match prepare_nft_metadata env store file (form.name.getD "") (form.description.getD "")
              wallet_address file_type form.thumbnail with
          | (.ok token_uri, store2, efs) => ⟨.okTokenUri token_uri, some wallet_address, store2, efs⟩
          | (.error e, store2, efs) => ⟨.fail 500 (pyErrMsg e), some wallet_address, store2, efs⟩
        if 100 * 1024 * 1024 < file.size then
          ⟨.fail 400 "File size exceeds 100MB limit", some wallet_address, store, []⟩
        else
          if file_type == "video" || file_type == "audio" then
            match form.thumbnail with
            | none => ⟨.fail 400 "Thumbnail required for video/audio files", some wallet_address, store, []⟩
            | some th =>
                if 10 * 1024 * 1024 < th.size then
                  ⟨.fail 400 "Thumbnail size exceeds 10MB limit", some wallet_address, store, []⟩
                else proceed ()
          else proceed ()
    else ⟨.fail 400 "Missing required fields", sess, store, []⟩

/-- One iteration of the token loop of the `get_nfts_for_sale` defined in
`app.py` (the definition the `/listings` route actually calls, as it shadows
the imported one): a listed, positively priced token is kept only when its
metadata fetch returns HTTP 200; a raising call skips the token. -/
def saleItem (env : Env) (token_id : ℕ) : Option SaleNft × List Effect :=
  match env.getTokenDetails (token_id : Int) with
  | .error _ => (none, [Effect.chainRead "getTokenDetails"])
  | .ok d =>
    if d.is_listed ∧ 0 < d.price then
      match env.httpGet d.uri with
      | .error _ => (none, [Effect.chainRead "getTokenDetails", Effect.httpGet d.uri])
      | .ok st =>
        if st.1 == 200 then
          (some {
            token_id := token_id,
            image := jsonGetD st.2 "image" (JVal.s ""),
            name := jsonGetD st.2 "name" (JVal.s ("Token " ++ toString token_id)),
            description := jsonGetD st.2 "description" (JVal.s ""),
            price := from_wei d.price,
            owner := d.owner },
           [Effect.chainRead "getTokenDetails", Effect.httpGet d.uri])
        else (none, [Effect.chainRead "getTokenDetails", Effect.httpGet d.uri])
    else (none, [Effect.chainRead "getTokenDetails"])

/-- The `get_nfts_for_sale` defined at module level in `app.py`. -/
def app_get_nfts_for_sale (env : Env) : List SaleNft × List Effect :=
  if !env.contractInit then ([], [])
  else
    match env.totalSupply with
    | .error _ => ([], [Effect.chainRead "totalSupply"])
    | .ok total =>
        ((List.range' 1 total).filterMap (fun tid => (saleItem env tid).1),
         Effect.chainRead "totalSupply" ::
           List.flatten ((List.range' 1 total).map (fun tid => (saleItem env tid).2)))

/-- `GET /listings`: the `before_request` hook rejects the request with a 500
when the contract failed to initialise; otherwise the (total) enumeration runs
and is returned with `success: true`. -/
def listings_route (env : Env) (sess : Session) (store : Store) : Out :=
  if !env.contractInit then ⟨.errOnly 500 "Contract not initialized", sess, store, []⟩
  else
    let r := app_get_nfts_for_sale env
    ⟨.okNfts r.1, sess, store, r.2⟩

/-- `GET /profile`: redirect when no session wallet; a `ValueError` from the
checksum conversion pops the session and redirects; otherwise render the page
with the balance and the user's NFTs, falling back to `0` and `[]` if the NFT
enumeration raises. -/
def profile_route (env : Env) (sess : Session) (store : Store) : Out :=
  match sess with
  | none => ⟨.redirect "/", sess, store, []⟩
  | some raw =>
    match env.toChecksum raw with
    | .error (.valueError _) => ⟨.redirect "/", none, store, []⟩
    | .error (.other _) => ⟨.crash, sess, store, []⟩
    | .ok wallet_address =>
      let b := get_balance env wallet_address
      match get_nfts_for_user env wallet_address with
      | (.ok nfts, ef2) => ⟨.pageProfile wallet_address b.1 nfts, some raw, store, b.2 ++ ef2⟩
      | (.error _, ef2) => ⟨.pageProfile wallet_address 0 [], some raw, store, b.2 ++ ef2⟩

/-- `POST /mint`: wallet gate, token-URI check, then read `gas_price` and the
account nonce and build the `mint(wallet, uri)` transaction; every exception
in the `try` yields a 500. An uninitialised contract surfaces as an
`AttributeError` at the build step, after the two reads. -/
def mint_nft (env : Env) (sess : Session) (store : Store) (body : Option MintBody) : Out :=
  match sess with
  | none => ⟨.fail 401 "Wallet not connected", sess, store, []⟩
  | some wa0 =>
    match body with
    | none => ⟨.crash, sess, store, []⟩
    | some data =>
      if !(truthyS data.token_uri) then ⟨.fail 400 "Missing token URI", sess, store, []⟩
      else
        let token_uri := data.token_uri.getD ""
        match env.toChecksum wa0 with
        | .error e => ⟨.fail 500 (pyErrMsg e), sess, store, []⟩
        | .ok wallet_address =>
          match env.gasPrice with
          | .error e => ⟨.fail 500 (pyErrMsg e), sess, store, [Effect.chainRead "gas_price"]⟩
          | .ok gas_price =>
            match env.txCount wallet_address with
            | .error e => ⟨.fail 500 (pyErrMsg e), sess, store,
                           [Effect.chainRead "gas_price", Effect.chainRead "nonce"]⟩
            | .ok nonce =>
              if !env.contractInit then
                ⟨.fail 500 "NoneType object has no attribute functions", sess, store,
                 [Effect.chainRead "gas_price", Effect.chainRead "nonce"]⟩
              else
                ⟨.okTx ⟨300, 500000, gas_price, nonce, wallet_address, "mint",
                        [wallet_address, token_uri]⟩,
                 sess, store,
                 [Effect.chainRead "gas_price", Effect.chainRead "nonce", Effect.txBuild "mint"]⟩

/-- The two `except` clauses shared by `/list` and `/unlist`: a `ValueError`
anywhere in the `try` yields 400 "Invalid token ID format", anything else a
500 with the exception text. -/
def caughtListExc (sess : Session) (store : Store) (efs : List Effect) : PyErr → Out
  | .valueError _ => ⟨.fail 400 "Invalid token ID format", sess, store, efs⟩
  | .other e => ⟨.fail 500 e, sess, store, efs⟩

/-- `POST /list`: wallet gate, presence of token id and price, `int(...)`
conversion, checksum, `to_wei`, ownership check via `ownerOf` (403 on
mismatch), then build the `listForSale(tokenId, priceWei)` transaction. -/
def list_nft (env : Env) (sess : Session) (store : Store) (body : Option ListBody) : Out :=
  match sess with
  | none => ⟨.fail 401 "Wallet not connected", sess, store, []⟩
  | some wa0 =>
    match body with
    | none => ⟨.crash, sess, store, []⟩
    | some data =>
      if !(truthyS data.token_id && truthyQ data.price) then
        ⟨.fail 400 "Missing token ID or price", sess, store, []⟩
      else
        match pyToInt (data.token_id.getD "") with
        | none => ⟨.fail 400 "Invalid token ID format", sess, store, []⟩
        | some token_id =>
          match env.toChecksum wa0 with
          | .error e => caughtListExc sess store [] e
          | .ok wallet_address =>
            match to_wei_ether (data.price.getD 0) with
            | .error e => caughtListExc sess store [] e
            | .ok price_wei =>
              if !env.contractInit then
                ⟨.fail 500 "NoneType object has no attribute functions", sess, store, []⟩
              else
                match env.ownerOf token_id with
                | .error e => caughtListExc sess store [Effect.chainRead "ownerOf"] e
                | .ok owner =>
                  if pyLower owner != pyLower wallet_address then
                    ⟨.fail 403 "Not the owner", sess, store, [Effect.chainRead "ownerOf"]⟩
                  else
                    match env.gasPrice with
                    | .error e => caughtListExc sess store
                        [Effect.chainRead "ownerOf", Effect.chainRead "gas_price"] e
                    | .ok gas_price =>
                      match env.txCount wallet_address with
                      | .error e => caughtListExc sess store
                          [Effect.chainRead "ownerOf", Effect.chainRead "gas_price",
                           Effect.chainRead "nonce"] e
                      | .ok nonce =>
                        ⟨.okTx ⟨300, 500000, gas_price, nonce, wallet_address, "listForSale",
                                [toString token_id, toString price_wei]⟩,
                         sess, store,
                         [Effect.chainRead "ownerOf", Effect.chainRead "gas_price",
                          Effect.chainRead "nonce", Effect.txBuild "listForSale"]⟩

/-- `POST /unlist`: like `/list` but without a price, building `unlist(tokenId)`. -/
def unlist_nft (env : Env) (sess : Session) (store : Store) (body : Option UnlistBody) : Out :=
  match sess with
  | none => ⟨.fail 401 "Wallet not connected", sess, store, []⟩
  | some wa0 =>
    match body with
    | none => ⟨.crash, sess, store, []⟩
    | some data =>
      if !(truthyS data.token_id) then
        ⟨.fail 400 "Missing token ID", sess, store, []⟩
      else
        match pyToInt (data.token_id.getD "") with
        | none => ⟨.fail 400 "Invalid token ID format", sess, store, []⟩
        | some token_id =>
          match env.toChecksum wa0 with
          | .error e => caughtListExc sess store [] e
          | .ok wallet_address =>
            if !env.contractInit then
              ⟨.fail 500 "NoneType object has no attribute functions", sess, store, []⟩
            else
              match env.ownerOf token_id with
              | .error e => caughtListExc sess store [Effect.chainRead "ownerOf"] e
              | .ok owner =>
                if pyLower owner != pyLower wallet_address then
                  ⟨.fail 403 "Not the owner", sess, store, [Effect.chainRead "ownerOf"]⟩
                else
                  match env.gasPrice with
                  | .error e => caughtListExc sess store
                      [Effect.chainRead "ownerOf", Effect.chainRead "gas_price"] e
                  | .ok gas_price =>
                    match env.txCount wallet_address with
                    | .error e => caughtListExc sess store
                        [Effect.chainRead "ownerOf", Effect.chainRead "gas_price",
                         Effect.chainRead "nonce"] e
                    | .ok nonce =>
                      ⟨.okTx ⟨300, 500000, gas_price, nonce, wallet_address, "unlist",
                              [toString token_id]⟩,
                       sess, store,
                       [Effect.chainRead "ownerOf", Effect.chainRead "gas_price",
                        Effect.chainRead "nonce", Effect.txBuild "unlist"]⟩

/-- The routes of the application. -/
inductive Request where
  | index : Request
  | connect : Option ConnectBody → Request
  | disconnect : Request
  | create : CreateForm → Request
  | listingsReq : Request
  | txStatus : String → Request
  | profileReq : Request
  | mint : Option MintBody → Request
  | listTok : Option ListBody → Request
  | unlistTok : Option UnlistBody → Request
  | getAbi : Request
  | viewMetadata : Option String → Request
deriving Repr, DecidableEq

/-- Dispatch one request to its handler (the routing table of `app.py`). -/
def handle (env : Env) (sess : Session) (store : Store) : Request → Out
  | .index => ⟨.page "index", sess, store, []⟩
  | .connect body => connect_wallet env sess store body
  | .disconnect => disconnect_wallet sess store
  | .create form => create_nft env sess store form
  | .listingsReq => listings_route env sess store
  | .txStatus h =>
      match env.getReceipt h with
      | .ok j => ⟨.okJson 200 j, sess, store, [Effect.chainRead "get_transaction_receipt"]⟩
      | .error _ => ⟨.okJson 404 [("status", JVal.s "not found")], sess, store,
                     [Effect.chainRead "get_transaction_receipt"]⟩
  | .profileReq => profile_route env sess store
  | .mint body => mint_nft env sess store body
  | .listTok body => list_nft env sess store body
  | .unlistTok body => unlist_nft env sess store body
  | .getAbi =>
      match env.readAbi with
      | .ok abi => ⟨.okJson 200 abi, sess, store, []⟩
      | .error e => ⟨.fail 500 (pyErrMsg e), sess, store, []⟩
  | .viewMetadata url =>
      if !(truthyS url) then ⟨.page "no-metadata-url", sess, store, []⟩
      else
        match env.httpGet (url.getD "") with
        | .ok _ => ⟨.page "view_metadata", sess, store, [Effect.httpGet (url.getD "")]⟩
        | .error _ => ⟨.page "metadata-error", sess, store, [Effect.httpGet (url.getD "")]⟩

/-! ## Effect-trace predicates -/

/-- Is this effect a chain read? -/
def isChainRead : Effect → Bool
  | .chainRead _ => true
  | _ => false

/-- Is this effect an object-store upload? -/
def isUpload : Effect → Bool
  | .upload _ => true
  | _ => false

/-- Is this effect a transaction build? -/
def isTxBuild : Effect → Bool
  | .txBuild _ => true
  | _ => false

/-- Is this effect an off-chain HTTP fetch? -/
def isHttpGet : Effect → Bool
  | .httpGet _ => true
  | _ => false

/-- A trace consisting of chain reads, followed by at most one final
transaction build. -/
def readsThenBuild : List Effect → Bool
  | [] => true
  | [Effect.txBuild _] => true
  | Effect.chainRead _ :: rest => readsThenBuild rest
  | _ => false

/-- A trace consisting of uploads only. -/
def uploadsOnly (t : List Effect) : Bool :=
  t.all isUpload

/-- A trace consisting of chain reads and HTTP fetches only. -/
def readsFetchesOnly (t : List Effect) : Bool :=
  t.all (fun e => isChainRead e || isHttpGet e)

/-- A trace without any chain-mutating submission. -/
def noSend (t : List Effect) : Bool :=
  t.all (fun e => e != Effect.chainSend)

/-- A chain read among the view functions named by the specification. -/
def allowedRead : Effect → Bool
  | .chainRead n => ["totalSupply", "getTokenDetails", "ownerOf", "balance"].contains n
  | _ => false

/-- A trace whose chain traffic is limited to the specification's view reads,
with off-chain HTTP fetches also permitted. -/
def readOnlyTraffic (t : List Effect) : Bool :=
  t.all (fun e => allowedRead e || isHttpGet e)

/-- Does the response carry a (success) payload of an unsigned transaction,
or report a failure? In either case nothing was signed or sent. -/
def txOrFailure : HResp → Bool
  | .okTx _ => true
  | .fail _ _ => true
  | .crash => true
  | _ => false

/-- Did the handler answer success with a token URI? -/
def isOkTokenUri : HResp → Bool
  | .okTokenUri _ => true
  | _ => false

/-- Did the handler answer success with a listings payload? -/
def isOkNfts : HResp → Bool
  | .okNfts _ => true
  | _ => false

/-- Modelled from the claim: the expected outcome of a successful `/create`
request per the specification's pipeline description — the main file stored
first and addressed as `gateway ++ cid(content)`, then the optional
thumbnail, then the metadata JSON document embedding those URLs, whose own
content-addressed URL is returned as the token URI. Compared against
`create_nft` (the embedding of the source) in the pipeline theorem. -/
def specPipelineOut (env : Env) (wa : String) (store : Store)
    (name description file_type : String) (file : FileUpload)
    (thumbnail : Option FileUpload) : Out :=
  let addrPre := pyLower wa
  let mainKey := addrPre ++ "/" ++ basename file.filename
  let main_url := env.gateway ++ env.cid file.content
  let thumbObjs : List StoredObject :=
    match thumbnail with
    | none => []
    | some th =>
        [⟨addrPre ++ "/thumbnails" ++ "/" ++
            basename ("thumb_" ++ toString env.now ++ "_" ++ file.filename),
          th.content, (env.mime th.filename).getD "image/jpeg"⟩]
  let thumbnail_url := thumbnail.map (fun th => env.gateway ++ env.cid th.content)
  let md := metadataDoc env.now name description wa file_type main_url thumbnail_url
  let mcontent := jsonDump md
  let metaKey := addrPre ++ "/metadata" ++ "/" ++ basename ("metadata_" ++ toString env.now ++ ".json")
  ⟨.okTokenUri (env.gateway ++ env.cid mcontent), some wa,
   store ++ [⟨mainKey, file.content, (env.mime file.filename).getD "application/octet-stream"⟩] ++
     thumbObjs ++ [⟨metaKey, mcontent, "application/json"⟩],
   [Effect.upload mainKey] ++ thumbObjs.map (fun o => Effect.upload o.key) ++
     [Effect.upload metaKey]⟩

/-! ## Concrete sample data for witnesses -/

/-- Details of token 1 in the sample environment: listed, price 5 wei. -/
def tdA : TokenDetails := ⟨"0xOwner", "0xCreator", 5, "uriA", true⟩

/-- A small concrete environment: two tokens, of which only token 1 resolves
(token 2's chain read reverts), one metadata URI serving HTTP 200, uploads
always succeeding, checksum conversion failing exactly on the empty string. -/
def envA : Env where
  gateway := "https://ipfs.example/ipfs/"
  cid := fun c => "cid-" ++ toString c.length
  uploadErr := fun _ => none
  mime := fun _ => none
  contractInit := true
  totalSupply := .ok 2
  getTokenDetails := fun tid => if tid == 1 then .ok tdA else .error (.other "execution reverted")
  ownerOf := fun tid => if tid == 1 then .ok "0xOwner" else .error (.other "execution reverted")
  gasPrice := .ok 100
  txCount := fun _ => .ok 7
  getBalance := fun _ => .ok 1000000000000000000
  getReceipt := fun _ => .error (.other "not found")
  httpGet := fun u =>
    if u == "uriA" then .ok (200, [("image", JVal.s "img"), ("name", JVal.s "N")])
    else .error (.other "timeout")
  recover := fun _ _ => .ok "0xabc"
  toChecksum := fun a => if a == "" then .error (.valueError "bad address") else .ok a
  readAbi := .ok []
  now := 1000

/-- A valid `/create` form: an image upload, no thumbnail. -/
def formA : CreateForm := ⟨some "Name", some "Desc", some "image", some ⟨"f.png", "PNG", 4⟩, none⟩

/-- The `/listings` entry the sample environment produces for token 1. -/
def saleA : SaleNft := ⟨1, JVal.s "img", JVal.s "N", JVal.s "", from_wei 5, "0xOwner"⟩

/-! ## Helper lemmas on the handlers -/

theorem mint_nft_sess_eq (env : Env) (sess : Session) (store : Store) (body : Option MintBody) :
    (mint_nft env sess store body).sess = sess := by
  unfold mint_nft
  cases sess with
  | none => rfl
  | some wa0 =>
    cases body with
    | none => rfl
    | some data =>
      dsimp only
      repeat' split
      all_goals rfl

theorem list_nft_sess_eq (env : Env) (sess : Session) (store : Store) (body : Option ListBody) :
    (list_nft env sess store body).sess = sess := by
  unfold list_nft caughtListExc
  cases sess with
  | none => rfl
  | some wa0 =>
    cases body with
    | none => rfl
    | some data =>
      dsimp only
      repeat' split
      all_goals rfl

theorem unlist_nft_sess_eq (env : Env) (sess : Session) (store : Store) (body : Option UnlistBody) :
    (unlist_nft env sess store body).sess = sess := by
  unfold unlist_nft caughtListExc
  cases sess with
  | none => rfl
  | some wa0 =>
    cases body with
    | none => rfl
    | some data =>
      dsimp only
      repeat' split
      all_goals rfl

theorem create_nft_sess_eq (env : Env) (sess : Session) (store : Store) (form : CreateForm) :
    (create_nft env sess store form).sess = sess := by
  unfold create_nft
  cases sess with
  | none => rfl
  | some wa =>
    dsimp only
    repeat' split
    all_goals rfl

theorem listings_route_sess_eq (env : Env) (sess : Session) (store : Store) :
    (listings_route env sess store).sess = sess := by
  unfold listings_route
  repeat' split
  all_goals rfl

/-- The session survives `/connect` unchanged unless a verified signature and
a successful checksum conversion install the checksum address. -/
theorem connect_wallet_sess_cases (env : Env) (sess : Session) (store : Store)
    (body : Option ConnectBody) :
    (connect_wallet env sess store body).sess = sess ∨
    (∃ b a, body = some b ∧
       verify_signature env (b.message.getD "") (b.signature.getD "") (b.address.getD "") = true ∧
       env.toChecksum (b.address.getD "") = .ok a ∧
       (connect_wallet env sess store body).sess = some a) := by
  cases body with
  | none => exact .inl rfl
  | some b =>
    by_cases ht : (truthyS b.signature && truthyS b.message && truthyS b.address) = true
    · by_cases hv : verify_signature env (b.message.getD "") (b.signature.getD "") (b.address.getD "") = true
      · cases hcs : env.toChecksum (b.address.getD "") with
        | ok a =>
            refine .inr ⟨b, a, rfl, hv, hcs, ?_⟩
            simp [connect_wallet, ht, hv, hcs]
        | error e =>
            refine .inl ?_
            cases e <;> simp [connect_wallet, ht, hv, hcs]
      · refine .inl ?_
        simp only [Bool.not_eq_true] at hv
        simp [connect_wallet, ht, hv]
    · refine .inl ?_
      simp only [Bool.not_eq_true] at ht
      simp [connect_wallet, ht]

/-- A well-formed `/connect` request with a verified signature and a valid
address installs its checksum form in the session. -/
theorem connect_wallet_sets (env : Env) (sess : Session) (store : Store) (b : ConnectBody)
    (a : String)
    (h1 : truthyS b.signature = true) (h2 : truthyS b.message = true)
    (h3 : truthyS b.address = true)
    (hv : verify_signature env (b.message.getD "") (b.signature.getD "") (b.address.getD "") = true)
    (hcs : env.toChecksum (b.address.getD "") = .ok a) :
    (connect_wallet env sess store (some b)).sess = some a := by
  simp [connect_wallet, h1, h2, h3, hv, hcs]

/-- The session survives `/profile` unchanged unless the stored address fails
the checksum conversion with a `ValueError`, in which case it is popped. -/
theorem profile_route_sess_cases (env : Env) (sess : Session) (store : Store) :
    (profile_route env sess store).sess = sess ∨
    (∃ raw e, sess = some raw ∧ env.toChecksum raw = .error (.valueError e) ∧
       (profile_route env sess store).sess = none) := by
  cases sess with
  | none => exact .inl rfl
  | some raw =>
    cases hcs : env.toChecksum raw with
    | ok wa =>
        refine .inl ?_
        simp only [profile_route, hcs]
        split
        all_goals rfl
    | error e =>
      cases e with
      | valueError m =>
          exact .inr ⟨raw, m, rfl, hcs, by simp [profile_route, hcs]⟩
      | other m =>
          refine .inl ?_
          simp [profile_route, hcs]

/-! ## Claim C2 and C8 -/

/-- C2: the session's `wallet_address` entry is created only by a `/connect`
whose (message, signature, address) triple verifies and whose address
converts to a checksum address; it is removed exactly by `/disconnect` or by
`/profile` detecting an invalid stored address; every other request leaves it
unchanged. The positive directions (a verified connect installs the address,
disconnect always clears, profile clears on an invalid address) also hold. -/
theorem session_wallet_lifecycle (env : Env) (sess : Session) (store : Store) (req : Request) :
    ((handle env sess store req).sess = sess ∨
     (∃ b a, req = .connect (some b) ∧
        verify_signature env (b.message.getD "") (b.signature.getD "") (b.address.getD "") = true ∧
        env.toChecksum (b.address.getD "") = .ok a ∧
        (handle env sess store req).sess = some a) ∨
     (req = .disconnect ∧ (handle env sess store req).sess = none) ∨
     (∃ raw e, req = .profileReq ∧ sess = some raw ∧
        env.toChecksum raw = .error (.valueError e) ∧
        (handle env sess store req).sess = none)) ∧
    (handle env sess store .disconnect).sess = none ∧
    (∀ b a, truthyS b.signature = true → truthyS b.message = true → truthyS b.address = true →
       verify_signature env (b.message.getD "") (b.signature.getD "") (b.address.getD "") = true →
       env.toChecksum (b.address.getD "") = .ok a →
       (handle env sess store (.connect (some b))).sess = some a) ∧
    (∀ raw e, sess = some raw → env.toChecksum raw = .error (.valueError e) →
       (handle env sess store .profileReq).sess = none) := by
  refine ⟨?_, rfl, ?_, ?_⟩
  · cases req with
    | index => exact .inl rfl
    | connect body =>
        rcases connect_wallet_sess_cases env sess store body with h | ⟨b, a, hb, hv, hcs, hs⟩
        · exact .inl h
        · exact .inr (.inl ⟨b, a, by rw [hb], hv, hcs, hs⟩)
    | disconnect => exact .inr (.inr (.inl ⟨rfl, rfl⟩))
    | create form => exact .inl (create_nft_sess_eq env sess store form)
    | listingsReq => exact .inl (listings_route_sess_eq env sess store)
    | txStatus h =>
        refine .inl ?_
        simp only [handle]
        split
        all_goals rfl
    | profileReq =>
        rcases profile_route_sess_cases env sess store with h | ⟨raw, e, hr, hcs, hs⟩
        · exact .inl h
        · exact .inr (.inr (.inr ⟨raw, e, rfl, hr, hcs, hs⟩))
    | mint body => exact .inl (mint_nft_sess_eq env sess store body)
    | listTok body => exact .inl (list_nft_sess_eq env sess store body)
    | unlistTok body => exact .inl (unlist_nft_sess_eq env sess store body)
    | getAbi =>
        refine .inl ?_
        simp only [handle]
        split
        all_goals rfl
    | viewMetadata url =>
        refine .inl ?_
        simp only [handle]
        repeat' split
        all_goals rfl
  · intro b a h1 h2 h3 hv hcs
    exact connect_wallet_sets env sess store b a h1 h2 h3 hv hcs
  · intro raw e hr hcs
    subst hr
    simp [handle, profile_route, hcs]

/-- C8: without a `wallet_address` in the session, `/create`, `/mint`,
`/list` and `/unlist` each answer 401 with success false, leave the session
and the object store untouched and perform no external effect, whatever the
rest of the request contains (the gate precedes all other validation). -/
theorem no_wallet_session_gate (env : Env) (store : Store) (form : CreateForm)
    (mb : Option MintBody) (lb : Option ListBody) (ub : Option UnlistBody) :
    handle env none store (.create form) = ⟨.fail 401 "Wallet not connected", none, store, []⟩ ∧
    handle env none store (.mint mb) = ⟨.fail 401 "Wallet not connected", none, store, []⟩ ∧
    handle env none store (.listTok lb) = ⟨.fail 401 "Wallet not connected", none, store, []⟩ ∧
    handle env none store (.unlistTok ub) = ⟨.fail 401 "Wallet not connected", none, store, []⟩ :=
  ⟨rfl, rfl, rfl, rfl⟩

/-! ## Trace-shape helper lemmas -/

theorem all_append_true (p : Effect → Bool) (a b : List Effect)
    (ha : a.all p = true) (hb : b.all p = true) : (a ++ b).all p = true := by
  simp only [List.all_append, ha, hb, Bool.and_self]

theorem all_imp_true (p q : Effect → Bool) (hpq : ∀ e, p e = true → q e = true)
    (t : List Effect) (h : t.all p = true) : t.all q = true := by
  induction t with
  | nil => rfl
  | cons e rest ih =>
    simp only [List.all_cons, Bool.and_eq_true] at h ⊢
    exact ⟨hpq e h.1, ih h.2⟩

theorem all_flatten_true (p : Effect → Bool) (ls : List (List Effect))
    (h : ∀ l ∈ ls, l.all p = true) : (List.flatten ls).all p = true := by
  induction ls with
  | nil => rfl
  | cons a t ih =>
    simp only [List.flatten_cons]
    exact all_append_true p a t.flatten (h a (List.mem_cons_self a t))
      (ih (fun l hl => h l (List.mem_cons_of_mem a hl)))

theorem uploadsOnly_noSend (t : List Effect) (h : uploadsOnly t = true) : noSend t = true :=
  all_imp_true _ _ (fun e he => by cases e <;> simp_all [isUpload]) t h

theorem readOnlyTraffic_noSend (t : List Effect) (h : readOnlyTraffic t = true) :
    noSend t = true :=
  all_imp_true _ _ (fun e he => by cases e <;> simp_all [allowedRead, isHttpGet]) t h

theorem readOnlyTraffic_readsFetches (t : List Effect) (h : readOnlyTraffic t = true) :
    readsFetchesOnly t = true :=
  all_imp_true _ _ (fun e he => by cases e <;> simp_all [allowedRead, isHttpGet, isChainRead]) t h

theorem readsThenBuild_noSend (t : List Effect) (h : readsThenBuild t = true) :
    noSend t = true := by
  induction t with
  | nil => rfl
  | cons e rest ih =>
    cases e with
    | chainRead n =>
        have h' : readsThenBuild rest = true := by
          cases rest <;> simpa [readsThenBuild] using h
        have := ih h'
        simpa [noSend] using this
    | txBuild f =>
        cases rest with
        | nil => rfl
        | cons a t2 => simp [readsThenBuild] at h
    | upload k => cases rest <;> simp [readsThenBuild] at h
    | chainSend => cases rest <;> simp [readsThenBuild] at h
    | httpGet u => cases rest <;> simp [readsThenBuild] at h


theorem upload_trace_uploads (env : Env) (store : Store) (kp f c ct : String) :
    uploadsOnly (upload_file_to_filebase env store kp f c ct).2.2 = true := by
  unfold upload_file_to_filebase
  dsimp only
  split
  all_goals rfl

theorem prepare_trace_uploads (env : Env) (store : Store) (file : FileUpload)
    (n d wa ft : String) (th : Option FileUpload) :
    uploadsOnly (prepare_nft_metadata env store file n d wa ft th).2.2 = true := by
  unfold prepare_nft_metadata
  dsimp only
  rcases hu1 : upload_file_to_filebase env store (pyLower wa) file.filename file.content
      ((env.mime file.filename).getD "application/octet-stream") with ⟨r1, s1, e1⟩
  have h1 : uploadsOnly e1 = true := by
    have h := upload_trace_uploads env store (pyLower wa) file.filename file.content
      ((env.mime file.filename).getD "application/octet-stream")
    rw [hu1] at h
    exact h
  cases r1 with
  | error e => exact h1
  | ok mainRes =>
    dsimp only
    cases th with
    | none =>
      dsimp only
      rcases hu3 : upload_file_to_filebase env s1 (pyLower wa ++ "/metadata")
          ("metadata_" ++ toString env.now ++ ".json")
          (jsonDump (metadataDoc env.now n d wa ft mainRes.1 none)) "application/json"
        with ⟨r3, s3, e3⟩
      have h3 : uploadsOnly e3 = true := by
        have h := upload_trace_uploads env s1 (pyLower wa ++ "/metadata")
          ("metadata_" ++ toString env.now ++ ".json")
          (jsonDump (metadataDoc env.now n d wa ft mainRes.1 none)) "application/json"
        rw [hu3] at h
        exact h
      cases r3 with
      | error e => exact all_append_true _ e1 e3 h1 h3
      | ok metaRes => exact all_append_true _ e1 e3 h1 h3
    | some thf =>
      dsimp only
      rcases hu2 : upload_file_to_filebase env s1 (pyLower wa ++ "/thumbnails")
          ("thumb_" ++ toString env.now ++ "_" ++ file.filename) thf.content
          ((env.mime thf.filename).getD "image/jpeg") with ⟨r2, s2, e2⟩
      have h2 : uploadsOnly e2 = true := by
        have h := upload_trace_uploads env s1 (pyLower wa ++ "/thumbnails")
          ("thumb_" ++ toString env.now ++ "_" ++ file.filename) thf.content
          ((env.mime thf.filename).getD "image/jpeg")
        rw [hu2] at h
        exact h
      cases r2 with
      | error e => exact all_append_true _ e1 e2 h1 h2
      | ok thRes =>
        dsimp only
        rcases hu3 : upload_file_to_filebase env s2 (pyLower wa ++ "/metadata")
            ("metadata_" ++ toString env.now ++ ".json")
            (jsonDump (metadataDoc env.now n d wa ft mainRes.1 (some thRes.1)))
            "application/json" with ⟨r3, s3, e3⟩
        have h3 : uploadsOnly e3 = true := by
          have h := upload_trace_uploads env s2 (pyLower wa ++ "/metadata")
            ("metadata_" ++ toString env.now ++ ".json")
            (jsonDump (metadataDoc env.now n d wa ft mainRes.1 (some thRes.1)))
            "application/json"
          rw [hu3] at h
          exact h
        have h12 := all_append_true _ e1 e2 h1 h2
        cases r3 with
        | error e => exact all_append_true _ (e1 ++ e2) e3 h12 h3
        | ok metaRes => exact all_append_true _ (e1 ++ e2) e3 h12 h3

theorem create_trace_uploads (env : Env) (sess : Session) (store : Store) (form : CreateForm) :
    uploadsOnly (create_nft env sess store form).trace = true := by
  unfold create_nft
  cases sess with
  | none => rfl
  | some wa =>
    dsimp only
    split
    · split
      · rfl
      · next file _ =>
        repeat' split
        all_goals
          (first
            | rfl
            | (rename_i heq
               have h := prepare_trace_uploads env store file (form.name.getD "")
                 (form.description.getD "") wa (form.file_type.getD "image") form.thumbnail
               rw [heq] at h
               exact h))
    · rfl

theorem mint_trace_shape (env : Env) (sess : Session) (store : Store) (body : Option MintBody) :
    readsThenBuild (mint_nft env sess store body).trace = true ∧
    txOrFailure (mint_nft env sess store body).resp = true := by
  unfold mint_nft
  cases sess with
  | none => exact ⟨rfl, rfl⟩
  | some wa0 =>
    cases body with
    | none => exact ⟨rfl, rfl⟩
    | some data =>
      dsimp only
      repeat' split
      all_goals exact ⟨rfl, rfl⟩

theorem list_trace_shape (env : Env) (sess : Session) (store : Store) (body : Option ListBody) :
    readsThenBuild (list_nft env sess store body).trace = true ∧
    txOrFailure (list_nft env sess store body).resp = true := by
  unfold list_nft caughtListExc
  cases sess with
  | none => exact ⟨rfl, rfl⟩
  | some wa0 =>
    cases body with
    | none => exact ⟨rfl, rfl⟩
    | some data =>
      dsimp only
      repeat' split
      all_goals exact ⟨rfl, rfl⟩

theorem unlist_trace_shape (env : Env) (sess : Session) (store : Store) (body : Option UnlistBody) :
    readsThenBuild (unlist_nft env sess store body).trace = true ∧
    txOrFailure (unlist_nft env sess store body).resp = true := by
  unfold unlist_nft caughtListExc
  cases sess with
  | none => exact ⟨rfl, rfl⟩
  | some wa0 =>
    cases body with
    | none => exact ⟨rfl, rfl⟩
    | some data =>
      dsimp only
      repeat' split
      all_goals exact ⟨rfl, rfl⟩

theorem saleItem_trace (env : Env) (tid : ℕ) :
    readOnlyTraffic (saleItem env tid).2 = true := by
  unfold saleItem
  repeat' split
  all_goals rfl

theorem userItem_trace (env : Env) (wa : String) (tid : ℕ) :
    readOnlyTraffic (userItem env wa tid).2 = true := by
  unfold userItem
  repeat' split
  all_goals rfl

theorem app_sale_trace (env : Env) :
    readOnlyTraffic (app_get_nfts_for_sale env).2 = true := by
  unfold app_get_nfts_for_sale
  split
  · rfl
  · split
    · rfl
    · simp only [readOnlyTraffic, List.all_cons, Bool.and_eq_true]
      refine ⟨rfl, ?_⟩
      refine all_flatten_true _ _ ?_
      intro l hl
      rcases List.mem_map.mp hl with ⟨tid, _, rfl⟩
      exact saleItem_trace env tid

theorem user_list_trace (env : Env) (wa : String) :
    readOnlyTraffic (get_nfts_for_user env wa).2 = true := by
  unfold get_nfts_for_user
  split
  · rfl
  · split
    · rfl
    · split
      · rfl
      · simp only [readOnlyTraffic, List.all_cons, Bool.and_eq_true]
        refine ⟨rfl, ?_⟩
        refine all_flatten_true _ _ ?_
        intro l hl
        rcases List.mem_map.mp hl with ⟨tid, _, rfl⟩
        exact userItem_trace env _ tid

theorem get_balance_trace (env : Env) (wa : String) :
    readOnlyTraffic (get_balance env wa).2 = true := by
  unfold get_balance
  repeat' split
  all_goals rfl

theorem listings_route_trace (env : Env) (sess : Session) (store : Store) :
    readOnlyTraffic (listings_route env sess store).trace = true := by
  unfold listings_route
  split
  · rfl
  · exact app_sale_trace env

theorem profile_route_trace (env : Env) (sess : Session) (store : Store) :
    readOnlyTraffic (profile_route env sess store).trace = true := by
  unfold profile_route
  cases sess with
  | none => rfl
  | some raw =>
    dsimp only
    cases hcs : env.toChecksum raw with
    | error e => cases e <;> rfl
    | ok wa =>
      dsimp only
      rcases hg : get_nfts_for_user env wa with ⟨r2, ef2⟩
      have h2 : readOnlyTraffic ef2 = true := by
        have h := user_list_trace env wa
        rw [hg] at h
        exact h
      cases r2 with
      | ok nfts => exact all_append_true _ _ ef2 (get_balance_trace env wa) h2
      | error e => exact all_append_true _ _ ef2 (get_balance_trace env wa) h2

theorem handle_noSend (env : Env) (sess : Session) (store : Store) (req : Request) :
    noSend (handle env sess store req).trace = true := by
  cases req with
  | index => rfl
  | connect body =>
      show noSend (connect_wallet env sess store body).trace = true
      unfold connect_wallet
      cases body with
      | none => rfl
      | some b =>
        dsimp only
        repeat' split
        all_goals rfl
  | disconnect => rfl
  | create form => exact uploadsOnly_noSend _ (create_trace_uploads env sess store form)
  | listingsReq => exact readOnlyTraffic_noSend _ (listings_route_trace env sess store)
  | txStatus h =>
      simp only [handle]
      split
      all_goals rfl
  | profileReq => exact readOnlyTraffic_noSend _ (profile_route_trace env sess store)
  | mint body => exact readsThenBuild_noSend _ (mint_trace_shape env sess store body).1
  | listTok body => exact readsThenBuild_noSend _ (list_trace_shape env sess store body).1
  | unlistTok body => exact readsThenBuild_noSend _ (unlist_trace_shape env sess store body).1
  | getAbi =>
      simp only [handle]
      split
      all_goals rfl
  | viewMetadata url =>
      simp only [handle]
      repeat' split
      all_goals rfl

/-! ## Claims C3 and C6 -/

/-- C3 counterexample: a successful `/listings` request performs no
transaction-build step at all, and a successful `/create` request performs no
blockchain read and no transaction build — contradicting the claim that each
of the three handlers performs input validation, blockchain reads, an
optional upload and a transaction-build step in sequence. -/
theorem listings_builds_no_transaction :
    isOkNfts (handle envA none [] .listingsReq).resp = true ∧
    (handle envA none [] .listingsReq).trace.any isTxBuild = false ∧
    isOkTokenUri (handle envA (some "0xAbC") [] (.create formA)).resp = true ∧
    (handle envA (some "0xAbC") [] (.create formA)).trace.any isChainRead = false ∧
    (handle envA (some "0xAbC") [] (.create formA)).trace.any isTxBuild = false := by
  refine ⟨?_, ?_, ?_, ?_, ?_⟩ <;> rfl

/-- C3 (amended): the transaction-building handlers `/mint`, `/list` and
`/unlist` perform input validation, then blockchain reads, then at most one
final transaction-build step; `/create` performs input validation then
object-store uploads only; `/listings` performs chain reads and metadata
fetches only, with no transaction build. -/
theorem handler_effect_shapes (env : Env) (sess : Session) (store : Store) :
    (∀ mb, readsThenBuild (handle env sess store (.mint mb)).trace = true) ∧
    (∀ lb, readsThenBuild (handle env sess store (.listTok lb)).trace = true) ∧
    (∀ ub, readsThenBuild (handle env sess store (.unlistTok ub)).trace = true) ∧
    (∀ form, uploadsOnly (handle env sess store (.create form)).trace = true) ∧
    readsFetchesOnly (handle env sess store .listingsReq).trace = true :=
  ⟨fun mb => (mint_trace_shape env sess store mb).1,
   fun lb => (list_trace_shape env sess store lb).1,
   fun ub => (unlist_trace_shape env sess store ub).1,
   fun form => create_trace_uploads env sess store form,
   readOnlyTraffic_readsFetches _ (listings_route_trace env sess store)⟩

/-- C6: no request ever submits anything to the chain (`chainSend` never
appears in a trace); `/mint`, `/list` and `/unlist` stop at the
transaction-build step, answering either a failure or the unsigned
transaction object, their traces being reads followed by at most one build;
`/listings` and `/profile` issue only the view reads (totalSupply,
getTokenDetails, ownerOf, balance) against the chain, plus off-chain
metadata fetches. -/
theorem backend_read_only (env : Env) (sess : Session) (store : Store) (req : Request) :
    noSend (handle env sess store req).trace = true ∧
    (∀ mb, req = .mint mb →
       txOrFailure (handle env sess store req).resp = true ∧
       readsThenBuild (handle env sess store req).trace = true) ∧
    (∀ lb, req = .listTok lb →
       txOrFailure (handle env sess store req).resp = true ∧
       readsThenBuild (handle env sess store req).trace = true) ∧
    (∀ ub, req = .unlistTok ub →
       txOrFailure (handle env sess store req).resp = true ∧
       readsThenBuild (handle env sess store req).trace = true) ∧
    (req = .listingsReq → readOnlyTraffic (handle env sess store req).trace = true) ∧
    (req = .profileReq → readOnlyTraffic (handle env sess store req).trace = true) := by
  refine ⟨handle_noSend env sess store req, ?_, ?_, ?_, ?_, ?_⟩
  · intro mb h
    subst h
    exact ⟨(mint_trace_shape env sess store mb).2, (mint_trace_shape env sess store mb).1⟩
  · intro lb h
    subst h
    exact ⟨(list_trace_shape env sess store lb).2, (list_trace_shape env sess store lb).1⟩
  · intro ub h
    subst h
    exact ⟨(unlist_trace_shape env sess store ub).2, (unlist_trace_shape env sess store ub).1⟩
  · intro h
    subst h
    exact listings_route_trace env sess store
  · intro h
    subst h
    exact profile_route_trace env sess store

/-- Witness for C6 at concrete inputs: a mint with a connected wallet builds
a transaction after reads only, and a listings request stays read-only. -/
theorem backend_read_only_witness :
    noSend (handle envA (some "0xAbC") [] (.mint (some ⟨some "uri-x"⟩))).trace = true ∧
    txOrFailure (handle envA (some "0xAbC") [] (.mint (some ⟨some "uri-x"⟩))).resp = true ∧
    readsThenBuild (handle envA (some "0xAbC") [] (.mint (some ⟨some "uri-x"⟩))).trace = true ∧
    readOnlyTraffic (handle envA none [] .listingsReq).trace = true :=
  ⟨(backend_read_only envA (some "0xAbC") [] (.mint (some ⟨some "uri-x"⟩))).1,
   ((backend_read_only envA (some "0xAbC") [] (.mint (some ⟨some "uri-x"⟩))).2.1 _ rfl).1,
   ((backend_read_only envA (some "0xAbC") [] (.mint (some ⟨some "uri-x"⟩))).2.1 _ rfl).2,
   (backend_read_only envA none [] .listingsReq).2.2.2.2.1 rfl⟩

/-! ## Per-token lemmas for the enumeration loops -/

theorem saleItem_some (env : Env) (tid : ℕ) (r : SaleNft)
    (h : (saleItem env tid).1 = some r) :
    r.token_id = tid ∧ ∃ d, env.getTokenDetails (tid : Int) = .ok d ∧
      d.is_listed = true ∧ 0 < d.price := by
  unfold saleItem at h
  split at h
  · simp at h
  · rename_i d hd
    split at h
    · rename_i hl
      split at h
      · simp at h
      · split at h
        · dsimp only at h
          obtain rfl := Option.some.inj h
          exact ⟨rfl, d, hd, hl.1, hl.2⟩
        · simp at h
    · simp at h

theorem userItem_some_tid (env : Env) (wa2 : String) (tid : ℕ) (u : UserNft)
    (h : (userItem env wa2 tid).1 = some u) : u.token_id = tid := by
  unfold userItem at h
  split at h
  · simp at h
  · split at h
    · split at h
      · simp at h
      · split at h
        · dsimp only at h
          obtain rfl := Option.some.inj h
          rfl
        · simp at h
    · simp at h

theorem saleItem_err (env : Env) (tid : ℕ) (e : PyErr)
    (hd : env.getTokenDetails (tid : Int) = .error e) : (saleItem env tid).1 = none := by
  unfold saleItem
  rw [hd]

theorem saleItem_fetch_err (env : Env) (tid : ℕ) (d : TokenDetails) (e : PyErr)
    (hd : env.getTokenDetails (tid : Int) = .ok d) (hf : env.httpGet d.uri = .error e) :
    (saleItem env tid).1 = none := by
  unfold saleItem
  rw [hd]
  split
  · rfl
  · rename_i d2 heq
    obtain rfl := Except.ok.inj heq
    split
    · rw [hf]
    · rfl

theorem userItem_err (env : Env) (wa2 : String) (tid : ℕ) (e : PyErr)
    (hd : env.getTokenDetails (tid : Int) = .error e) : (userItem env wa2 tid).1 = none := by
  unfold userItem
  rw [hd]

theorem userItem_fetch_err (env : Env) (wa2 : String) (tid : ℕ) (d : TokenDetails) (e : PyErr)
    (hd : env.getTokenDetails (tid : Int) = .ok d) (hf : env.httpGet d.uri = .error e) :
    (userItem env wa2 tid).1 = none := by
  unfold userItem
  rw [hd]
  split
  · rfl
  · rename_i d2 heq
    obtain rfl := Except.ok.inj heq
    split
    · rw [hf]
    · rfl

theorem sale_skip_not_mem (env : Env) (tid : ℕ)
    (hnone : (saleItem env tid).1 = none) (r : SaleNft)
    (hr : r ∈ (app_get_nfts_for_sale env).1) : r.token_id ≠ tid := by
  intro hteq
  unfold app_get_nfts_for_sale at hr
  split at hr
  · simp at hr
  · split at hr
    · simp at hr
    · dsimp only at hr
      rcases List.mem_filterMap.mp hr with ⟨tid2, _, hsome⟩
      obtain ⟨heq, _, _, _, _⟩ := saleItem_some env tid2 r hsome
      rw [heq.symm.trans hteq, hnone] at hsome
      exact Option.noConfusion hsome

theorem user_skip_not_mem (env : Env) (wa2 : String) (total tid : ℕ)
    (hnone : (userItem env wa2 tid).1 = none) (u : UserNft)
    (hu : u ∈ (List.range' 1 total).filterMap (fun t => (userItem env wa2 t).1)) :
    u.token_id ≠ tid := by
  intro hteq
  rcases List.mem_filterMap.mp hu with ⟨tid2, _, hsome⟩
  have heq := userItem_some_tid env wa2 tid2 u hsome
  rw [heq.symm.trans hteq, hnone] at hsome
  exact Option.noConfusion hsome

theorem sale_item_mem (env : Env) (total tid : ℕ) (r : SaleNft)
    (hci : env.contractInit = true) (htotal : env.totalSupply = .ok total)
    (htid : tid ∈ List.range' 1 total) (hsome : (saleItem env tid).1 = some r) :
    r ∈ (app_get_nfts_for_sale env).1 := by
  simp only [app_get_nfts_for_sale, hci, Bool.not_true, Bool.false_eq_true, if_false, htotal]
  exact List.mem_filterMap.mpr ⟨tid, htid, hsome⟩

theorem user_list_eq (env : Env) (wa wa2 : String) (total : ℕ)
    (hcs : env.toChecksum wa = .ok wa2) (hci : env.contractInit = true)
    (htotal : env.totalSupply = .ok total) :
    (get_nfts_for_user env wa).1 =
      .ok ((List.range' 1 total).filterMap (fun tid => (userItem env wa2 tid).1)) := by
  simp only [get_nfts_for_user, hcs, hci, Bool.not_true, Bool.false_eq_true, if_false, htotal]

/-! ## Claims C4 and C7 -/

/-- C4: every NFT record in a successful `/listings` response corresponds to
a token whose on-chain details carry a true listed flag and a strictly
positive price in wei; a token with price 0 or an unset listed flag never
appears in the result. -/
theorem listings_only_listed_positive (env : Env) (sess : Session) (store : Store)
    (l : List SaleNft) (r : SaleNft)
    (hresp : (handle env sess store .listingsReq).resp = .okNfts l)
    (hr : r ∈ l) :
    ∃ d, env.getTokenDetails (r.token_id : Int) = .ok d ∧
      d.is_listed = true ∧ 0 < d.price := by
  have hl : l = (app_get_nfts_for_sale env).1 := by
    simp only [handle, listings_route] at hresp
    split at hresp
    · exact absurd hresp (by simp)
    · exact (HResp.okNfts.inj hresp).symm
  rw [hl] at hr
  unfold app_get_nfts_for_sale at hr
  split at hr
  · simp at hr
  · split at hr
    · simp at hr
    · dsimp only at hr
      rcases List.mem_filterMap.mp hr with ⟨tid, _, hsome⟩
      obtain ⟨heq, d, hd, hlist, hpos⟩ := saleItem_some env tid r hsome
      rw [heq]
      exact ⟨d, hd, hlist, hpos⟩

/-- Witness for C4: in the sample environment the listings response consists
of exactly the record for token 1, and that token is listed at price 5 wei. -/
theorem listings_only_listed_positive_witness :
    (handle envA none [] .listingsReq).resp = .okNfts [saleA] ∧ saleA ∈ [saleA] ∧
    ∃ d, envA.getTokenDetails (saleA.token_id : Int) = .ok d ∧
      d.is_listed = true ∧ 0 < d.price :=
  ⟨rfl, List.mem_singleton_self saleA,
   listings_only_listed_positive envA none [] [saleA] saleA rfl
     (List.mem_singleton_self saleA)⟩

/-- C7: the enumeration loops recover from per-token failures by skipping:
inside `1..totalSupply`, a token whose chain read raises, or whose metadata
fetch raises, is omitted from both the `/listings` and the user-NFT results
while every other token whose calls succeed still appears, and the user
enumeration returns a list (never propagating a per-token exception). -/
theorem per_token_failure_skipping (env : Env) (total tid : ℕ) (wa wa2 : String)
    (hci : env.contractInit = true)
    (htotal : env.totalSupply = .ok total)
    (hcs : env.toChecksum wa = .ok wa2)
    (htid : tid ∈ List.range' 1 total) :
    ∃ ul, (get_nfts_for_user env wa).1 = .ok ul ∧
      (∀ e, env.getTokenDetails (tid : Int) = .error e →
        (∀ r ∈ (app_get_nfts_for_sale env).1, r.token_id ≠ tid) ∧
        (∀ u ∈ ul, u.token_id ≠ tid)) ∧
      (∀ d e, env.getTokenDetails (tid : Int) = .ok d → env.httpGet d.uri = .error e →
        (∀ r ∈ (app_get_nfts_for_sale env).1, r.token_id ≠ tid) ∧
        (∀ u ∈ ul, u.token_id ≠ tid)) ∧
      (∀ r, (saleItem env tid).1 = some r → r ∈ (app_get_nfts_for_sale env).1) ∧
      (∀ u, (userItem env wa2 tid).1 = some u →
        u ∈ (List.range' 1 total).filterMap (fun t => (userItem env wa2 t).1)) := by
  refine ⟨_, user_list_eq env wa wa2 total hcs hci htotal, ?_, ?_, ?_, ?_⟩
  · intro e he
    refine ⟨fun r hr => sale_skip_not_mem env tid (saleItem_err env tid e he) r hr,
            fun u hu => user_skip_not_mem env wa2 total tid (userItem_err env wa2 tid e he) u hu⟩
  · intro d e hd hf
    refine ⟨fun r hr => sale_skip_not_mem env tid (saleItem_fetch_err env tid d e hd hf) r hr,
            fun u hu => user_skip_not_mem env wa2 total tid (userItem_fetch_err env wa2 tid d e hd hf) u hu⟩
  · intro r hsome
    exact sale_item_mem env total tid r hci htotal htid hsome
  · intro u hsome
    exact List.mem_filterMap.mpr ⟨tid, htid, hsome⟩

/-- Witness for C7: in the sample environment token 2 is inside the
enumeration range, so the theorem applies to it concretely (its chain read
does in fact revert there, and token 1 still appears). -/
theorem per_token_failure_skipping_witness :
    (2 : ℕ) ∈ List.range' 1 2 ∧
    (∃ ul, (get_nfts_for_user envA "0xAbC").1 = .ok ul ∧
      (∀ e, envA.getTokenDetails ((2 : ℕ) : Int) = .error e →
        (∀ r ∈ (app_get_nfts_for_sale envA).1, r.token_id ≠ 2) ∧
        (∀ u ∈ ul, u.token_id ≠ 2)) ∧
      (∀ d e, envA.getTokenDetails ((2 : ℕ) : Int) = .ok d → envA.httpGet d.uri = .error e →
        (∀ r ∈ (app_get_nfts_for_sale envA).1, r.token_id ≠ 2) ∧
        (∀ u ∈ ul, u.token_id ≠ 2)) ∧
      (∀ r, (saleItem envA 2).1 = some r → r ∈ (app_get_nfts_for_sale envA).1) ∧
      (∀ u, (userItem envA "0xAbC" 2).1 = some u →
        u ∈ (List.range' 1 2).filterMap (fun t => (userItem envA "0xAbC" t).1))) :=
  ⟨by decide, per_token_failure_skipping envA 2 2 "0xAbC" "0xAbC" rfl rfl rfl (by decide)⟩

/-! ## Claims C9 and C10 -/

/-- C9: `/create` enforces the size limits before any upload: an oversized
main file (over 100MB), a missing thumbnail for video/audio, or an oversized
thumbnail (over 10MB) each yield a 400 failure with the object store
unchanged and an empty effect trace — nothing has been uploaded. -/
theorem create_size_limit_gates (env : Env) (wa : String) (store : Store)
    (name description file_type : String) (file : FileUpload)
    (thumbnail : Option FileUpload)
    (hname : name ≠ "") (hdesc : description ≠ "") :
    (100 * 1024 * 1024 < file.size →
      create_nft env (some wa) store
          ⟨some name, some description, some file_type, some file, thumbnail⟩ =
        ⟨.fail 400 "File size exceeds 100MB limit", some wa, store, []⟩) ∧
    ((file_type = "video" ∨ file_type = "audio") → file.size ≤ 100 * 1024 * 1024 →
      create_nft env (some wa) store
          ⟨some name, some description, some file_type, some file, none⟩ =
        ⟨.fail 400 "Thumbnail required for video/audio files", some wa, store, []⟩) ∧
    (∀ th, (file_type = "video" ∨ file_type = "audio") → file.size ≤ 100 * 1024 * 1024 →
      10 * 1024 * 1024 < th.size →
      create_nft env (some wa) store
          ⟨some name, some description, some file_type, some file, some th⟩ =
        ⟨.fail 400 "Thumbnail size exceeds 10MB limit", some wa, store, []⟩) := by
  have hn : (name != "") = true := bne_iff_ne.mpr hname
  have hds : (description != "") = true := bne_iff_ne.mpr hdesc
  refine ⟨?_, ?_, ?_⟩
  · intro hbig
    simp [create_nft, truthyS, hn, hds, hbig]
  · intro hft hsz
    have hft2 : (file_type == "video" || file_type == "audio") = true := by
      rcases hft with h | h <;> simp [h]
    simp [create_nft, truthyS, hn, hds, Nat.not_lt.mpr hsz, hft2]
  · intro th hft hsz hth
    have hft2 : (file_type == "video" || file_type == "audio") = true := by
      rcases hft with h | h <;> simp [h]
    simp [create_nft, truthyS, hn, hds, Nat.not_lt.mpr hsz, hft2, hth]

/-- Witness for C9: a 104857601-byte file is rejected with nothing stored. -/
theorem create_size_limit_gates_witness :
    100 * 1024 * 1024 < (104857601 : ℕ) ∧
    create_nft envA (some "0xAbC") []
        ⟨some "N", some "D", some "image", some ⟨"f", "x", 104857601⟩, none⟩ =
      ⟨.fail 400 "File size exceeds 100MB limit", some "0xAbC", [], []⟩ :=
  ⟨by decide,
   (create_size_limit_gates envA "0xAbC" [] "N" "D" "image" ⟨"f", "x", 104857601⟩ none
      (by decide) (by decide)).1 (by decide)⟩

/-- C10: on `/list` and `/unlist` with a parseable token id, an owner
mismatch (case-insensitive) yields a 403 "Not the owner" with no transaction
built, and a transaction-build effect can only occur when the session wallet
matches the token's owner. -/
theorem ownership_gate_403 (env : Env) (wa0 wa tidS owner : String) (price : ℚ)
    (tid pw : Int) (store : Store)
    (htid : tidS ≠ "") (hprice : price ≠ 0)
    (hparse : pyToInt tidS = some tid)
    (hcs : env.toChecksum wa0 = .ok wa)
    (hwei : to_wei_ether price = .ok pw)
    (hci : env.contractInit = true)
    (hown : env.ownerOf tid = .ok owner) :
    (pyLower owner ≠ pyLower wa →
       list_nft env (some wa0) store (some ⟨some tidS, some price⟩) =
         ⟨.fail 403 "Not the owner", some wa0, store, [Effect.chainRead "ownerOf"]⟩ ∧
       unlist_nft env (some wa0) store (some ⟨some tidS⟩) =
         ⟨.fail 403 "Not the owner", some wa0, store, [Effect.chainRead "ownerOf"]⟩) ∧
    (Effect.txBuild "listForSale" ∈
        (list_nft env (some wa0) store (some ⟨some tidS, some price⟩)).trace →
       pyLower owner = pyLower wa) ∧
    (Effect.txBuild "unlist" ∈
        (unlist_nft env (some wa0) store (some ⟨some tidS⟩)).trace →
       pyLower owner = pyLower wa) := by
  have ht : (tidS != "") = true := bne_iff_ne.mpr htid
  have hp : (price != 0) = true := bne_iff_ne.mpr hprice
  by_cases heq : pyLower owner = pyLower wa
  · exact ⟨fun hne => absurd heq hne, fun _ => heq, fun _ => heq⟩
  · have hneB : (pyLower owner != pyLower wa) = true := bne_iff_ne.mpr heq
    refine ⟨fun _ => ⟨?_, ?_⟩, ?_, ?_⟩
    · simp [list_nft, truthyS, truthyQ, ht, hp, hparse, hcs, hwei, hci, hown, hneB]
    · simp [unlist_nft, truthyS, ht, hparse, hcs, hci, hown, hneB]
    · intro hmem
      simp [list_nft, truthyS, truthyQ, ht, hp, hparse, hcs, hwei, hci, hown, hneB] at hmem
    · intro hmem
      simp [unlist_nft, truthyS, ht, hparse, hcs, hci, hown, hneB] at hmem

/-- Witness for C10: in the sample environment token 1 is owned by
`0xOwner`, so a `/list` and an `/unlist` from the connected wallet `0xBob`
are refused with 403 and no transaction is built. -/
theorem ownership_gate_403_witness :
    pyLower "0xOwner" ≠ pyLower "0xBob" ∧
    ((pyLower "0xOwner" ≠ pyLower "0xBob" →
       list_nft envA (some "0xBob") [] (some ⟨some "1", some 1⟩) =
         ⟨.fail 403 "Not the owner", some "0xBob", [], [Effect.chainRead "ownerOf"]⟩ ∧
       unlist_nft envA (some "0xBob") [] (some ⟨some "1"⟩) =
         ⟨.fail 403 "Not the owner", some "0xBob", [], [Effect.chainRead "ownerOf"]⟩) ∧
     (Effect.txBuild "listForSale" ∈
         (list_nft envA (some "0xBob") [] (some ⟨some "1", some 1⟩)).trace →
        pyLower "0xOwner" = pyLower "0xBob") ∧
     (Effect.txBuild "unlist" ∈
         (unlist_nft envA (some "0xBob") [] (some ⟨some "1"⟩)).trace →
        pyLower "0xOwner" = pyLower "0xBob")) :=
  ⟨by decide,
   ownership_gate_403 envA "0xBob" "0xBob" "1" "0xOwner" 1 1 1000000000000000000 []
     (by decide) (by decide) rfl rfl (by norm_num [to_wei_ether]) rfl rfl⟩

/-! ## The create pipeline (claims C1 and C5) -/

theorem upload_ok (env : Env) (store : Store) (kp f c ct : String)
    (hup : env.uploadErr (kp ++ "/" ++ basename f) = none) :
    upload_file_to_filebase env store kp f c ct =
      (.ok (env.gateway ++ env.cid c, kp ++ "/" ++ basename f),
       store ++ [⟨kp ++ "/" ++ basename f, c, ct⟩],
       [Effect.upload (kp ++ "/" ++ basename f)]) := by
  unfold upload_file_to_filebase
  dsimp only
  rw [hup]

theorem create_pipeline_eq (env : Env) (wa : String) (store : Store)
    (name description file_type : String) (file : FileUpload) (thumbnail : Option FileUpload)
    (hname : name ≠ "") (hdesc : description ≠ "")
    (hup : ∀ k, env.uploadErr k = none)
    (hsize : file.size ≤ 100 * 1024 * 1024)
    (hthumb : (file_type == "video" || file_type == "audio") = true →
       ∃ th, thumbnail = some th ∧ th.size ≤ 10 * 1024 * 1024) :
    create_nft env (some wa) store
        ⟨some name, some description, some file_type, some file, thumbnail⟩ =
      specPipelineOut env wa store name description file_type file thumbnail := by
  have hn : (name != "") = true := bne_iff_ne.mpr hname
  have hds : (description != "") = true := bne_iff_ne.mpr hdesc
  have hsz : ¬(100 * 1024 * 1024 < file.size) := Nat.not_lt.mpr hsize
  by_cases hft : (file_type == "video" || file_type == "audio") = true
  · obtain ⟨th, rfl, hthsz⟩ := hthumb hft
    have hthsz2 : ¬(10 * 1024 * 1024 < th.size) := Nat.not_lt.mpr hthsz
    simp [create_nft, prepare_nft_metadata, upload_file_to_filebase, specPipelineOut,
          truthyS, hn, hds, hsz, hft, hthsz2, hup]
  · cases thumbnail with
    | none =>
        simp [create_nft, prepare_nft_metadata, upload_file_to_filebase, specPipelineOut,
              truthyS, hn, hds, hsz, hft, hup]
    | some th =>
        simp [create_nft, prepare_nft_metadata, upload_file_to_filebase, specPipelineOut,
              truthyS, hn, hds, hsz, hft, hup]

/-- C1: a successful `/create` request executes the linear upload pipeline in
order: the main file is uploaded first and content-addressed as
`gateway ++ cid(bytes)`, the metadata JSON document embedding that URL is
built (`metadataDoc`) and uploaded afterwards (with the thumbnail, when
present, uploaded in between), and the handler returns the metadata
document's content-addressed URL as the token URI — exactly the outcome
described by `specPipelineOut`. -/
theorem create_upload_pipeline (env : Env) (wa : String) (store : Store)
    (name description file_type : String) (file : FileUpload) (thumbnail : Option FileUpload)
    (hname : name ≠ "") (hdesc : description ≠ "")
    (hup : ∀ k, env.uploadErr k = none)
    (hsize : file.size ≤ 100 * 1024 * 1024)
    (hthumb : (file_type = "video" ∨ file_type = "audio") →
       ∃ th, thumbnail = some th ∧ th.size ≤ 10 * 1024 * 1024) :
    create_nft env (some wa) store
        ⟨some name, some description, some file_type, some file, thumbnail⟩ =
      specPipelineOut env wa store name description file_type file thumbnail := by
  refine create_pipeline_eq env wa store name description file_type file thumbnail
    hname hdesc hup hsize ?_
  intro hft
  refine hthumb ?_
  rcases Bool.or_eq_true_iff.mp hft with h | h
  · exact .inl (beq_iff_eq.mp h)
  · exact .inr (beq_iff_eq.mp h)

/-- Witness for C1: the pipeline equation evaluated on the sample
environment for an image upload without a thumbnail. -/
theorem create_upload_pipeline_witness :
    (∀ k, envA.uploadErr k = none) ∧
    create_nft envA (some "0xAbC") []
        ⟨some "Name", some "Desc", some "image", some ⟨"f.png", "PNG", 4⟩, none⟩ =
      specPipelineOut envA "0xAbC" [] "Name" "Desc" "image" ⟨"f.png", "PNG", 4⟩ none :=
  ⟨fun _ => rfl,
   create_upload_pipeline envA "0xAbC" [] "Name" "Desc" "image" ⟨"f.png", "PNG", 4⟩ none
     (by decide) (by decide) (fun _ => rfl) (by decide)
     (fun h => absurd h (by decide))⟩

/-- C5: the metadata document uploaded for every created NFT is a JSON
object with exactly the ten fields name, description, creator, created_at,
file_type, main_url, thumbnail_url, image, network, chainId; its creator is
the session wallet address, its network is "zksync-sepolia" and its chainId
is 300; and the last object a successful `/create` stores is exactly the
serialisation of that document. -/
theorem metadata_document_fields (env : Env) (wa : String) (store : Store)
    (name description file_type : String) (file : FileUpload) (thumbnail : Option FileUpload)
    (hname : name ≠ "") (hdesc : description ≠ "")
    (hup : ∀ k, env.uploadErr k = none)
    (hsize : file.size ≤ 100 * 1024 * 1024)
    (hthumb : (file_type == "video" || file_type == "audio") = true →
       ∃ th, thumbnail = some th ∧ th.size ≤ 10 * 1024 * 1024) :
    (metadataDoc env.now name description wa file_type
        (env.gateway ++ env.cid file.content)
        (thumbnail.map fun th => env.gateway ++ env.cid th.content)).map Prod.fst =
      ["name", "description", "creator", "created_at", "file_type", "main_url",
       "thumbnail_url", "image", "network", "chainId"] ∧
    jsonGetD (metadataDoc env.now name description wa file_type
        (env.gateway ++ env.cid file.content)
        (thumbnail.map fun th => env.gateway ++ env.cid th.content)) "creator" JVal.null =
      JVal.s wa ∧
    jsonGetD (metadataDoc env.now name description wa file_type
        (env.gateway ++ env.cid file.content)
        (thumbnail.map fun th => env.gateway ++ env.cid th.content)) "network" JVal.null =
      JVal.s "zksync-sepolia" ∧
    jsonGetD (metadataDoc env.now name description wa file_type
        (env.gateway ++ env.cid file.content)
        (thumbnail.map fun th => env.gateway ++ env.cid th.content)) "chainId" JVal.null =
      JVal.n 300 ∧
    (create_nft env (some wa) store
        ⟨some name, some description, some file_type, some file, thumbnail⟩).store.getLast? =
      some ⟨pyLower wa ++ "/metadata" ++ "/" ++
              basename ("metadata_" ++ toString env.now ++ ".json"),
            jsonDump (metadataDoc env.now name description wa file_type
              (env.gateway ++ env.cid file.content)
              (thumbnail.map fun th => env.gateway ++ env.cid th.content)),
            "application/json"⟩ := by
  refine ⟨rfl, rfl, rfl, rfl, ?_⟩
  rw [create_pipeline_eq env wa store name description file_type file thumbnail
       hname hdesc hup hsize hthumb]
  unfold specPipelineOut
  dsimp only
  rw [List.getLast?_concat]

/-- Witness for C5: the field properties and the stored metadata object, on
the sample environment for an image upload without a thumbnail. -/
theorem metadata_document_fields_witness :
    (metadataDoc envA.now "Name" "Desc" "0xAbC" "image"
        (envA.gateway ++ envA.cid "PNG") none).map Prod.fst =
      ["name", "description", "creator", "created_at", "file_type", "main_url",
       "thumbnail_url", "image", "network", "chainId"] ∧
    jsonGetD (metadataDoc envA.now "Name" "Desc" "0xAbC" "image"
        (envA.gateway ++ envA.cid "PNG") none) "creator" JVal.null = JVal.s "0xAbC" ∧
    jsonGetD (metadataDoc envA.now "Name" "Desc" "0xAbC" "image"
        (envA.gateway ++ envA.cid "PNG") none) "network" JVal.null =
      JVal.s "zksync-sepolia" ∧
    jsonGetD (metadataDoc envA.now "Name" "Desc" "0xAbC" "image"
        (envA.gateway ++ envA.cid "PNG") none) "chainId" JVal.null = JVal.n 300 ∧
    (create_nft envA (some "0xAbC") []
        ⟨some "Name", some "Desc", some "image", some ⟨"f.png", "PNG", 4⟩, none⟩).store.getLast? =
      some ⟨pyLower "0xAbC" ++ "/metadata" ++ "/" ++
              basename ("metadata_" ++ toString envA.now ++ ".json"),
            jsonDump (metadataDoc envA.now "Name" "Desc" "0xAbC" "image"
              (envA.gateway ++ envA.cid "PNG") none),
            "application/json"⟩ :=
  metadata_document_fields envA "0xAbC" [] "Name" "Desc" "image" ⟨"f.png", "PNG", 4⟩ none
    (by decide) (by decide) (fun _ => rfl) (by decide)
    (fun h => absurd h (by decide))

/-- Witness for C2: a verified `/connect` on the sample environment installs
the checksum address, and `/disconnect` clears it. -/
theorem session_wallet_lifecycle_witness :
    (handle envA none []
        (.connect (some ⟨some "sig", some "msg", some "0xAbC"⟩))).sess = some "0xAbC" ∧
    (handle envA (some "0xAbC") [] .disconnect).sess = none :=
  ⟨(session_wallet_lifecycle envA none [] .index).2.2.1
     ⟨some "sig", some "msg", some "0xAbC"⟩ "0xAbC"
     (by decide) (by decide) (by decide) (by decide) rfl,
   (session_wallet_lifecycle envA (some "0xAbC") [] .index).2.1⟩
